import Mathlib

/-!
# WaterCycle: a shallow embedding of the simulation engine

This file embeds the simulation engine of the WaterCycle city water
management game (files `WaterCycle.py` and `WaterCycleV2.py`) in Lean and
proves properties of it.

Modelling conventions:
* Python integers are `ℤ` (with explicit `max 0 _` / `min cap _` clamping as
  in the source); counters that can only grow from zero are `ℕ`.
* The Python float `difficulty_multiplier` (1.0, stepped by 0.05) and elapsed
  wall-clock seconds are modelled as exact rationals `ℚ`.
* Random draws (`random.randint`, `random.choice`) are inputs of the
  functions that perform them.
* Mutation is explicit state passing: a method that mutates `self` becomes a
  function returning the updated value; UI calls (`log_message`,
  `update_display`, `show_end_screen`) become an output list of
  `Notification` values.
* The fixed sector dictionary keyed by name becomes a total function from an
  inductive name type; Python dict iteration order (insertion order) is the
  list `sectorOrder`.
-/

/-- The three sector names fixed at city construction
(`Households`, `Businesses`, `Data Centers`). -/
inductive SectorName : Type
  | households
  | businesses
  | dataCenters
deriving DecidableEq, Repr

/-- Python dict iteration order of `city.sectors` (insertion order). -/
def sectorOrder : List SectorName :=
  [.households, .businesses, .dataCenters]

/-- Point update of the sector map: models in-place mutation of one dict
entry. -/
def setAt {β : Type} (f : SectorName → β) (n : SectorName) (b : β) :
    SectorName → β :=
  fun m => if m = n then b else f m

/-- Python `int()` applied to a rational: truncation toward zero. -/
def pyInt (q : ℚ) : ℤ := if q < 0 then ⌈q⌉ else ⌊q⌋

namespace WaterCycleV2

/-- `Sector` of `WaterCycleV2.py`: a district consuming water.
`cons_lo`/`cons_hi` are the two components of `consumption_range`. -/
structure Sector where
  name : SectorName
  water_level : ℤ
  max_water : ℤ
  cons_lo : ℕ
  cons_hi : ℕ
  risk_threshold : ℤ
  total_consumed : ℤ
  total_allocated : ℤ
  critical_warnings : ℕ
deriving DecidableEq, Repr

/-- `Sector.__init__`: fresh sector, full level 100 of 100, threshold 20,
zeroed statistics. -/
def Sector.init (n : SectorName) (lo hi : ℕ) : Sector :=
  { name := n
    water_level := 100
    max_water := 100
    cons_lo := lo
    cons_hi := hi
    risk_threshold := 20
    total_consumed := 0
    total_allocated := 0
    critical_warnings := 0 }

/-- `Sector.consume`, with the drawn amount `d` (the result of
`random.randint(*self.consumption_range)`) passed in.  Returns the updated
sector and the drawn amount.  Note the source adds the drawn amount — not
the clamped actual decrease — to `total_consumed`. -/
def Sector.consume (s : Sector) (d : ℕ) : Sector × ℕ :=
  ({ s with
      water_level := max 0 (s.water_level - d)
      total_consumed := s.total_consumed + d }, d)

/-- `Sector.add_water`: credit clamped at `max_water`; `total_allocated`
grows by the post-clamp actual increase. -/
def Sector.add_water (s : Sector) (amount : ℤ) : Sector :=
  let old_level := s.water_level
  let new_level := min s.max_water (s.water_level + amount)
  { s with
      water_level := new_level
      total_allocated := s.total_allocated + (new_level - old_level) }

/-- `Sector.is_critical`: the test is `water_level <= risk_threshold` (with
no emptiness conjunct); a call with a true result increments
`critical_warnings`.  Returns the updated sector and the result. -/
def Sector.is_critical (s : Sector) : Sector × Bool :=
  if s.water_level ≤ s.risk_threshold then
    ({ s with critical_warnings := s.critical_warnings + 1 }, true)
  else
    (s, false)

/-- `Sector.is_empty`. -/
def Sector.is_empty (s : Sector) : Bool :=
  decide (s.water_level ≤ 0)

/-- `Event`: an urgent water request with an 8 second countdown. -/
structure Event where
  sector : SectorName
  amount_needed : ℤ
  time_left : ℤ
  is_active : Bool
deriving DecidableEq, Repr

/-- `Event.__init__`. -/
def Event.init (n : SectorName) (amount : ℤ) : Event :=
  { sector := n
    amount_needed := amount
    time_left := 8
    is_active := true }

/-- `Event.tick`: decrement the countdown when active; the result is `true`
exactly when the event just expired. -/
def Event.tick (e : Event) : Event × Bool :=
  if e.is_active = true then
    let e1 := { e with time_left := e.time_left - 1 }
    (e1, decide (e1.time_left ≤ 0))
  else
    (e, false)

/-- `Event.resolve`: deactivate. -/
def Event.resolve (e : Event) : Event :=
  { e with is_active := false }

/-- `City` of `WaterCycleV2.py`: the tower plus the fixed sector map. -/
structure City where
  tower_level : ℤ
  max_tower : ℤ
  refill_rate : ℤ
  sectors : SectorName → Sector

/-- `City.__init__`: tower 1000 of 1000, refill 16, the three sectors with
their consumption ranges. -/
def City.init : City :=
  { tower_level := 1000
    max_tower := 1000
    refill_rate := 16
    sectors := fun n =>
      match n with
      | .households => Sector.init .households 1 7
      | .businesses => Sector.init .businesses 2 8
      | .dataCenters => Sector.init .dataCenters 3 10 }

/-- `City.refill_tower`. -/
def City.refill_tower (c : City) : City :=
  { c with tower_level := min c.max_tower (c.tower_level + c.refill_rate) }

/-- `City.allocate_water`: atomic check-then-debit; the sector credit goes
through `Sector.add_water`.  On failure the city is returned untouched. -/
def City.allocate_water (c : City) (sector_name : SectorName) (amount : ℤ) :
    City × Bool :=
  if amount ≤ c.tower_level then
    ({ c with
        tower_level := c.tower_level - amount
        sectors := setAt c.sectors sector_name
          ((c.sectors sector_name).add_water amount) }, true)
  else
    (c, false)

/-- `City.update_sectors`, with one independent draw per sector. -/
def City.update_sectors (c : City) (draws : SectorName → ℕ) : City :=
  { c with sectors := fun n => ((c.sectors n).consume (draws n)).1 }

/-- `City.check_lose_condition` restricted to a given iteration order. -/
def City.check_lose_in : City → List SectorName → Bool × Option SectorName
  | _, [] => (false, none)
  | c, n :: ns =>
    if (c.sectors n).is_empty = true then
      (true, some (c.sectors n).name)
    else
      c.check_lose_in ns

/-- `City.check_lose_condition`: first empty sector in dict iteration
order, if any. -/
def City.check_lose_condition (c : City) : Bool × Option SectorName :=
  c.check_lose_in sectorOrder

/-- Observable effects the engine sends to the presentation boundary: the
`log_message` calls (with just their data, not the text), `update_display`,
and `show_end_screen`. -/
inductive Notification : Type
  | criticalWarning (n : SectorName)
  | urgentEvent (n : SectorName) (amount : ℤ)
  | eventExpired (n : SectorName)
  | eventResolvedMsg (n : SectorName) (amount : ℤ)
  | notEnoughWater
  | allocationOk (n : SectorName) (amount : ℕ)
  | allocationFailed
  | gameOverMsg (n : SectorName)
  | victoryMsg
  | endScreen (won : Bool) (failed_sector : Option SectorName)
  | displayRefresh
deriving DecidableEq, Repr

/-- `GameManager` state (`ui` and `start_time` excluded: UI calls become
`Notification` outputs, and the wall-clock reading `time.time() -
start_time` is an input of `game_tick`). -/
structure GameManager where
  city : City
  active_event : Option Event
  next_event_time : ℤ
  game_running : Bool
  win_time : ℚ
  events_resolved : ℕ
  events_failed : ℕ
  total_allocations : ℕ
  difficulty_multiplier : ℚ
  ticks_survived : ℕ

/-- `GameManager.__init__`, with the initial draw
`random.randint(10, 20)` passed in as `first_delay`. -/
def GameManager.init (first_delay : ℤ) : GameManager :=
  { city := City.init
    active_event := none
    next_event_time := first_delay
    game_running := true
    win_time := 300
    events_resolved := 0
    events_failed := 0
    total_allocations := 0
    difficulty_multiplier := 1
    ticks_survived := 0 }

/-- `GameManager.generate_event`, with the draws `random.choice(...)` and
`random.randint(20, 60)` passed in.  The amount is
`int(base * difficulty_multiplier)`, a truncation. -/
def GameManager.generate_event (g : GameManager) (chosen : SectorName)
    (base : ℕ) : GameManager × List Notification :=
  let amount := pyInt ((base : ℚ) * g.difficulty_multiplier)
  ({ g with active_event := some (Event.init chosen amount) },
   [.urgentEvent chosen amount])

/-- `GameManager.game_over`: stop the loop, log, and show the end screen
(the statistics snapshot itself is the pure `calculate_score` input below). -/
def GameManager.game_over (g : GameManager) (n : SectorName) :
    GameManager × List Notification :=
  ({ g with game_running := false },
   [.gameOverMsg n, .endScreen false (some n)])

/-- `GameManager.game_won`. -/
def GameManager.game_won (g : GameManager) : GameManager × List Notification :=
  ({ g with game_running := false }, [.victoryMsg, .endScreen true none])

/-- `GameManager.handle_event_expiry`: count the failure, apply the fixed
15-water penalty (clamped at 0) to the target sector, possibly end the game,
then deactivate the event.  The `none` branch is unreachable: the tick only
calls this with an active event installed. -/
def GameManager.handle_event_expiry (g : GameManager) :
    GameManager × List Notification :=
  match g.active_event with
  | none => (g, [])
  | some ev =>
    let g1 := { g with events_failed := g.events_failed + 1 }
    let s := g1.city.sectors ev.sector
    let s1 := { s with water_level := max 0 (s.water_level - 15) }
    let g2 := { g1 with
      city := { g1.city with sectors := setAt g1.city.sectors ev.sector s1 } }
    let p :=
      if s1.is_empty = true then g2.game_over ev.sector else (g2, [])
    let g3 := { p.1 with active_event := some ev.resolve }
    (g3, Notification.eventExpired ev.sector :: p.2)

/-- `GameManager.resolve_event` (the player command): requires an active
event and a sufficient tower level; on success allocates atomically and
counts the resolution. -/
def GameManager.resolve_event (g : GameManager) :
    GameManager × List Notification :=
  match g.active_event with
  | none => (g, [])
  | some ev =>
    if ev.is_active = true then
      if ev.amount_needed ≤ g.city.tower_level then
        let r := g.city.allocate_water ev.sector ev.amount_needed
        ({ g with
            city := r.1
            events_resolved := g.events_resolved + 1
            total_allocations := g.total_allocations + 1
            active_event := some ev.resolve },
         [.eventResolvedMsg ev.sector ev.amount_needed])
      else
        (g, [.notEnoughWater])
    else
      (g, [])

/-- The random draws and the wall-clock reading consumed by one
`game_tick`. -/
structure TickInput where
  draws : SectorName → ℕ
  event_sector : SectorName
  event_base : ℕ
  next_delay : ℤ
  elapsed : ℚ

/-- Tick step 1–2: `ticks_survived += 1`, and every 30th tick
`difficulty_multiplier += 0.05`. -/
def GameManager.advance_counters (g : GameManager) : GameManager :=
  let g1 := { g with ticks_survived := g.ticks_survived + 1 }
  if g1.ticks_survived % 30 = 0 then
    { g1 with difficulty_multiplier := g1.difficulty_multiplier + 1/20 }
  else
    g1

/-- One step of the critical-warning loop: `sector.is_critical()` is always
called (and may bump the counter); the warning is only emitted when the
sector is critical and not empty (`and` short-circuit). -/
def City.warn_step (c : City) (n : SectorName) : City × List Notification :=
  let r := (c.sectors n).is_critical
  let c1 := { c with sectors := setAt c.sectors n r.1 }
  if r.2 = true ∧ r.1.is_empty = false then
    (c1, [.criticalWarning n])
  else
    (c1, [])

/-- The critical-warning loop over a given iteration order. -/
def City.warn_all : City → List SectorName → City × List Notification
  | c, [] => (c, [])
  | c, n :: ns =>
    let p := c.warn_step n
    let q := p.1.warn_all ns
    (q.1, p.2 ++ q.2)

/-- Tick step 5: the critical-warning loop over all sectors. -/
def GameManager.warn_critical (g : GameManager) :
    GameManager × List Notification :=
  let p := g.city.warn_all sectorOrder
  ({ g with city := p.1 }, p.2)

/-- Tick step 6: advance the active event's countdown and handle expiry. -/
def GameManager.event_phase (g : GameManager) :
    GameManager × List Notification :=
  match g.active_event with
  | none => (g, [])
  | some ev =>
    if ev.is_active = true then
      let r := ev.tick
      let g1 := { g with active_event := some r.1 }
      if r.2 = true then g1.handle_event_expiry else (g1, [])
    else
      (g, [])

/-- `self.active_event is None or not self.active_event.is_active`. -/
def GameManager.event_inactive (g : GameManager) : Bool :=
  match g.active_event with
  | none => true
  | some ev => !ev.is_active

/-- Tick step 7: decrement the spawn countdown; spawn a fresh event and
re-randomize the countdown when it is due and no event is active. -/
def GameManager.spawn_phase (g : GameManager) (chosen : SectorName)
    (base : ℕ) (delay : ℤ) : GameManager × List Notification :=
  let g1 := { g with next_event_time := g.next_event_time - 1 }
  if g1.next_event_time ≤ 0 ∧ g1.event_inactive = true then
    let p := g1.generate_event chosen base
    ({ p.1 with next_event_time := delay }, p.2)
  else
    (g1, [])

/-- `GameManager.game_tick`: one full tick, in source order.  Note that the
expiry branch of `event_phase` can already call `game_over`, yet the tick
continues through the spawn phase and the loss evaluation. -/
def GameManager.game_tick (g : GameManager) (inp : TickInput) :
    GameManager × List Notification :=
  if g.game_running = true then
    let g1 := g.advance_counters
    let g2 := { g1 with city := g1.city.refill_tower }
    let g3 := { g2 with city := g2.city.update_sectors inp.draws }
    let p4 := g3.warn_critical
    let p5 := p4.1.event_phase
    let p6 := p5.1.spawn_phase inp.event_sector inp.event_base inp.next_delay
    let pre := p4.2 ++ p5.2 ++ p6.2
    let lose := p6.1.city.check_lose_condition
    if lose.1 = true then
      match lose.2 with
      | some n =>
        let p := p6.1.game_over n
        (p.1, pre ++ p.2)
      | none => (p6.1, pre)
    else if g.win_time ≤ inp.elapsed then
      let p := p6.1.game_won
      (p.1, pre ++ p.2)
    else
      (p6.1, pre ++ [.displayRefresh])
  else
    (g, [])

namespace GameUI

/-- `GameUI.allocate_water` (a sector button): guarded by `game_running`;
the manager-level allocation runs, the result is logged, and the display is
refreshed. -/
def allocate_water (g : GameManager) (sector_name : SectorName)
    (amount : ℕ) : GameManager × List Notification :=
  if g.game_running = true then
    let r := g.city.allocate_water sector_name (amount : ℤ)
    let g1 := { g with city := r.1 }
    if r.2 = true then
      ({ g1 with total_allocations := g1.total_allocations + 1 },
       [.allocationOk sector_name amount, .displayRefresh])
    else
      (g1, [.allocationFailed, .displayRefresh])
  else
    (g, [])

/-- `GameUI.resolve_event` (the "Allocate Now" button): the manager always
exists once the game started, so this is exactly
`GameManager.resolve_event` — with no `game_running` guard. -/
def resolve_event (g : GameManager) : GameManager × List Notification :=
  g.resolve_event

end GameUI

/-- The states a run can reach from a fresh `GameManager` under any
interleaving of ticks and player commands, for arbitrary draws. -/
inductive Reachable : GameManager → Prop
  | init (first_delay : ℤ) : Reachable (GameManager.init first_delay)
  | tick {g : GameManager} (inp : TickInput) :
      Reachable g → Reachable (g.game_tick inp).1
  | alloc {g : GameManager} (n : SectorName) (amount : ℕ) :
      Reachable g → Reachable (GameUI.allocate_water g n amount).1
  | resolve {g : GameManager} :
      Reachable g → Reachable (GameUI.resolve_event g).1

/-- One sector's entry in the `get_statistics` snapshot. -/
structure SectorStats where
  total_consumed : ℤ
  total_allocated : ℤ
  critical_warnings : ℕ
  final_level : ℤ
deriving DecidableEq, Repr

/-- The `get_statistics` snapshot handed to the end screen. -/
structure Stats where
  time_survived : ℚ
  events_resolved : ℕ
  events_failed : ℕ
  total_allocations : ℕ
  sectors : List SectorStats
deriving DecidableEq, Repr

/-- `GameManager.get_statistics`, with the wall-clock reading passed in. -/
def GameManager.get_statistics (g : GameManager) (elapsed : ℚ) : Stats :=
  { time_survived := elapsed
    events_resolved := g.events_resolved
    events_failed := g.events_failed
    total_allocations := g.total_allocations
    sectors := sectorOrder.map fun n =>
      { total_consumed := (g.city.sectors n).total_consumed
        total_allocated := (g.city.sectors n).total_allocated
        critical_warnings := (g.city.sectors n).critical_warnings
        final_level := (g.city.sectors n).water_level } }

/-- A persisted leaderboard record.  The two formatted strings of the source
(`time`, `date`) carry no engine data; the timestamp is kept as an opaque
number. -/
structure LeaderboardEntry where
  score : ℤ
  won : Bool
  time_seconds : ℚ
  events_resolved : ℕ
  events_failed : ℕ
  date : ℕ
deriving DecidableEq, Repr

/-- The sort key order used by `add_to_leaderboard`:
`sort(key=lambda x: x['score'], reverse=True)`. -/
def byScoreDesc (a b : LeaderboardEntry) : Prop :=
  b.score ≤ a.score

instance : DecidableRel byScoreDesc := fun a b =>
  inferInstanceAs (Decidable (b.score ≤ a.score))

instance : IsTotal LeaderboardEntry byScoreDesc :=
  ⟨fun a b => le_total b.score a.score⟩

instance : IsTrans LeaderboardEntry byScoreDesc :=
  ⟨fun _ _ _ hab hbc => le_trans hbc hab⟩

namespace GameUI

/-- `GameUI.calculate_score`: the incremental score accumulation of the
source, ending in `max(0, score)`. -/
def calculate_score (stats : Stats) (won : Bool) : ℤ :=
  let s1 : ℤ := 0 + pyInt (stats.time_survived * 100)
  let s2 := if won = true then s1 + 50000 else s1
  let s3 := s2 + stats.events_resolved * 1000
  let s4 := s3 - stats.events_failed * 500
  let s5 := stats.sectors.foldl
    (fun acc s => acc + s.final_level * 10 - (s.critical_warnings : ℤ) * 100) s4
  max 0 s5

/-- `GameUI.add_to_leaderboard` on the loaded collection: append the new
entry, sort by score descending (Python `list.sort` is stable, which
`List.insertionSort` with this key order computes), keep the top 10.  The
best-effort file read/write around this is not part of the engine. -/
def add_to_leaderboard (board : List LeaderboardEntry)
    (entry : LeaderboardEntry) : List LeaderboardEntry :=
  (List.insertionSort byScoreDesc (board ++ [entry])).take 10

end GameUI

end WaterCycleV2

namespace WaterCycle1

/-- `Sector` of the first version `WaterCycle.py`: no statistics fields. -/
structure Sector where
  name : SectorName
  water_level : ℤ
  max_water : ℤ
  cons_lo : ℕ
  cons_hi : ℕ
  risk_threshold : ℤ
deriving DecidableEq, Repr

/-- `Sector.__init__` of `WaterCycle.py`. -/
def Sector.init (n : SectorName) (lo hi : ℕ) : Sector :=
  { name := n
    water_level := 100
    max_water := 100
    cons_lo := lo
    cons_hi := hi
    risk_threshold := 20 }

/-- `Sector.add_water` of `WaterCycle.py`: clamped credit, no stats. -/
def Sector.add_water (s : Sector) (amount : ℤ) : Sector :=
  { s with water_level := min s.max_water (s.water_level + amount) }

/-- `City` of `WaterCycle.py`. -/
structure City where
  tower_level : ℤ
  max_tower : ℤ
  refill_rate : ℤ
  sectors : SectorName → Sector

/-- `City.__init__` of `WaterCycle.py`: refill 8, different consumption
ranges. -/
def City.init : City :=
  { tower_level := 1000
    max_tower := 1000
    refill_rate := 8
    sectors := fun n =>
      match n with
      | .households => Sector.init .households 1 7
      | .businesses => Sector.init .businesses 1 5
      | .dataCenters => Sector.init .dataCenters 1 10 }

/-- `City.allocate_water` of `WaterCycle.py`: same check-then-debit shape
as the second version. -/
def City.allocate_water (c : City) (sector_name : SectorName) (amount : ℤ) :
    City × Bool :=
  if amount ≤ c.tower_level then
    ({ c with
        tower_level := c.tower_level - amount
        sectors := setAt c.sectors sector_name
          ((c.sectors sector_name).add_water amount) }, true)
  else
    (c, false)

end WaterCycle1

namespace WaterCycleV2

/-! ## The clamping invariant and its preservation -/

/-- Clamping invariant of one sector. -/
def SectorInv (s : Sector) : Prop :=
  0 ≤ s.water_level ∧ s.water_level ≤ s.max_water

/-- Clamping invariant of the city, together with the facts about the fixed
configuration fields that make it inductive. -/
def CityInv (c : City) : Prop :=
  (∀ n, SectorInv (c.sectors n)) ∧
    0 ≤ c.tower_level ∧ c.tower_level ≤ c.max_tower ∧ 0 ≤ c.refill_rate

/-- Any installed event requests a non-negative amount. -/
def EventOk (g : GameManager) : Prop :=
  ∀ e, g.active_event = some e → 0 ≤ e.amount_needed

/-- The run invariant. -/
def Inv (g : GameManager) : Prop :=
  CityInv g.city ∧ 0 ≤ g.difficulty_multiplier ∧ EventOk g

/-- Counts the `show_end_screen` calls (terminal transitions surfaced to the
player) in a notification trace. -/
def countEndScreens (l : List Notification) : ℕ :=
  l.countP fun m =>
    match m with
    | .endScreen _ _ => true
    | _ => false

/-- A state mid-run: an active event on Households with 1 second left and
Households down to 10 water, next spawn due on the coming tick.  Exercises
the expiry-penalty loss path of `game_tick`. -/
def expiryLossState : GameManager :=
  { GameManager.init 1 with
      active_event := some
        { sector := .households, amount_needed := 30, time_left := 1,
          is_active := true }
      city := { City.init with
        sectors := setAt City.init.sectors .households
          { Sector.init .households 1 7 with water_level := 10 } } }

/-- Draws for the tick that exercises the expiry-penalty loss path: no
consumption, and a fresh event draw for Businesses. -/
def expiryLossTick : TickInput :=
  { draws := fun _ => 0
    event_sector := .businesses
    event_base := 20
    next_delay := 12
    elapsed := 50 }

/-- A terminated state that still holds an active (unexpired) event: reached
when some other sector empties while the event is pending. -/
def deadWithEvent : GameManager :=
  { GameManager.init 5 with
      game_running := false
      active_event := some
        { sector := .households, amount_needed := 30, time_left := 5,
          is_active := true } }

/-- A terminated state with no outstanding event. -/
def deadQuiet : GameManager :=
  { GameManager.init 5 with game_running := false }

/-- A leaderboard entry with the given score and timestamp, other fields
fixed. -/
def plainEntry (sc : ℤ) (d : ℕ) : LeaderboardEntry :=
  { score := sc
    won := false
    time_seconds := 0
    events_resolved := 0
    events_failed := 0
    date := d }

/-- A full stored leaderboard: ten entries, scores 100 down to 10. -/
def fullBoard : List LeaderboardEntry :=
  [plainEntry 100 0, plainEntry 90 1, plainEntry 80 2, plainEntry 70 3,
   plainEntry 60 4, plainEntry 50 5, plainEntry 40 6, plainEntry 30 7,
   plainEntry 20 8, plainEntry 10 9]

/-! ## Basic lemmas -/

theorem setAt_same {β : Type} (f : SectorName → β) (n : SectorName) (b : β) :
    setAt f n b n = b := by
  simp [setAt]

theorem setAt_other {β : Type} (f : SectorName → β) (n m : SectorName)
    (b : β) (h : m ≠ n) : setAt f n b m = f m := by
  simp [setAt, h]

theorem pyInt_nonneg {q : ℚ} (h : 0 ≤ q) : 0 ≤ pyInt q := by
  rw [pyInt, if_neg (not_lt.mpr h)]
  exact Int.floor_nonneg.mpr h

theorem pyInt_of_nonneg {q : ℚ} (h : 0 ≤ q) : pyInt q = ⌊q⌋ := by
  rw [pyInt, if_neg (not_lt.mpr h)]

theorem sectorInv_init (n : SectorName) (lo hi : ℕ) :
    SectorInv (Sector.init n lo hi) := by
  constructor <;> norm_num [Sector.init]

theorem cityInv_init : CityInv City.init := by
  refine ⟨fun n => ?_, by norm_num [City.init], by norm_num [City.init],
    by norm_num [City.init]⟩
  cases n <;> exact sectorInv_init _ _ _

theorem inv_init (d : ℤ) : Inv (GameManager.init d) := by
  refine ⟨cityInv_init, by norm_num [GameManager.init], fun e he => ?_⟩
  simp [GameManager.init] at he

theorem sectorInv_consume {s : Sector} (h : SectorInv s) (d : ℕ) :
    SectorInv (s.consume d).1 := by
  obtain ⟨h0, h1⟩ := h
  refine ⟨le_max_left 0 _, max_le (le_trans h0 h1) ?_⟩
  exact le_trans (sub_le_self _ (by positivity)) h1

theorem sectorInv_add_water {s : Sector} {amount : ℤ} (ha : 0 ≤ amount)
    (h : SectorInv s) : SectorInv (s.add_water amount) := by
  obtain ⟨h0, h1⟩ := h
  exact ⟨le_min (le_trans h0 h1) (add_nonneg h0 ha), min_le_left _ _⟩

theorem sectorInv_is_critical {s : Sector} (h : SectorInv s) :
    SectorInv (s.is_critical).1 := by
  rw [Sector.is_critical]
  split
  · exact ⟨h.1, h.2⟩
  · exact h

theorem cityInv_refill {c : City} (h : CityInv c) :
    CityInv c.refill_tower := by
  obtain ⟨hs, h0, h1, hr⟩ := h
  exact ⟨hs, le_min (le_trans h0 h1) (add_nonneg h0 hr), min_le_left _ _, hr⟩

theorem cityInv_setAt {c : City} {n : SectorName} {s : Sector}
    (h : CityInv c) (hs : SectorInv s) :
    CityInv { c with sectors := setAt c.sectors n s } := by
  obtain ⟨hall, h0, h1, hr⟩ := h
  refine ⟨fun m => ?_, h0, h1, hr⟩
  by_cases hm : m = n
  · subst hm; rw [show ({ c with sectors := setAt c.sectors m s } : City).sectors
      = setAt c.sectors m s from rfl, setAt_same]; exact hs
  · rw [show ({ c with sectors := setAt c.sectors n s } : City).sectors
      = setAt c.sectors n s from rfl, setAt_other _ _ _ _ hm]; exact hall m

theorem cityInv_allocate {c : City} {n : SectorName} {amount : ℤ}
    (ha : 0 ≤ amount) (h : CityInv c) :
    CityInv (c.allocate_water n amount).1 := by
  rw [City.allocate_water]
  split
  · next hle =>
    obtain ⟨hall, h0, h1, hr⟩ := h
    refine ⟨fun m => ?_, sub_nonneg.mpr hle,
      le_trans (sub_le_self _ ha) h1, hr⟩
    by_cases hm : m = n
    · subst hm
      simpa [setAt_same] using sectorInv_add_water ha (hall m)
    · simpa [setAt_other _ _ _ _ hm] using hall m
  · exact h

theorem cityInv_update_sectors {c : City} (h : CityInv c)
    (draws : SectorName → ℕ) : CityInv (c.update_sectors draws) := by
  obtain ⟨hall, h0, h1, hr⟩ := h
  exact ⟨fun m => sectorInv_consume (hall m) (draws m), h0, h1, hr⟩

theorem cityInv_warn_step {c : City} (h : CityInv c) (n : SectorName) :
    CityInv (c.warn_step n).1 := by
  rw [City.warn_step]
  have h1 : CityInv { c with
      sectors := setAt c.sectors n ((c.sectors n).is_critical).1 } :=
    cityInv_setAt h (sectorInv_is_critical (h.1 n))
  split <;> exact h1

theorem cityInv_warn_all {c : City} (h : CityInv c) :
    ∀ ns : List SectorName, CityInv (c.warn_all ns).1 := by
  intro ns
  induction ns generalizing c with
  | nil => exact h
  | cons n ns ih => exact ih (cityInv_warn_step h n)

theorem inv_advance_counters {g : GameManager} (h : Inv g) :
    Inv g.advance_counters := by
  obtain ⟨hc, hm, he⟩ := h
  rw [GameManager.advance_counters]
  split
  · exact ⟨hc, add_nonneg hm (by norm_num), he⟩
  · exact ⟨hc, hm, he⟩

theorem inv_warn_critical {g : GameManager} (h : Inv g) :
    Inv (g.warn_critical).1 := by
  obtain ⟨hc, hm, he⟩ := h
  exact ⟨cityInv_warn_all hc sectorOrder, hm, he⟩

theorem inv_game_over {g : GameManager} (h : Inv g) (n : SectorName) :
    Inv (g.game_over n).1 := by
  obtain ⟨hc, hm, he⟩ := h
  exact ⟨hc, hm, he⟩

theorem inv_game_won {g : GameManager} (h : Inv g) : Inv (g.game_won).1 := by
  obtain ⟨hc, hm, he⟩ := h
  exact ⟨hc, hm, he⟩

theorem inv_handle_event_expiry {g : GameManager} (h : Inv g) :
    Inv (g.handle_event_expiry).1 := by
  obtain ⟨hc, hm, he⟩ := h
  cases hev : g.active_event with
  | none =>
    rw [GameManager.handle_event_expiry, hev]
    exact ⟨hc, hm, he⟩
  | some ev =>
    rw [GameManager.handle_event_expiry, hev]
    dsimp only
    have hs : SectorInv { g.city.sectors ev.sector with
        water_level := max 0 ((g.city.sectors ev.sector).water_level - 15) } := by
      obtain ⟨h0, h1⟩ := hc.1 ev.sector
      exact ⟨le_max_left 0 _,
        max_le (le_trans h0 h1) (le_trans (sub_le_self _ (by norm_num)) h1)⟩
    have hc2 : CityInv { g.city with
        sectors := setAt g.city.sectors ev.sector
          { g.city.sectors ev.sector with
            water_level := max 0 ((g.city.sectors ev.sector).water_level - 15) } } :=
      cityInv_setAt hc hs
    have hok : ∀ p : GameManager × List Notification,
        CityInv p.1.city → 0 ≤ p.1.difficulty_multiplier →
        Inv ({ p.1 with active_event := some ev.resolve }) :=
      fun p hp hd => ⟨hp, hd, fun e hee => by
        simp only [Option.some.injEq] at hee
        rw [← hee]
        exact he ev hev⟩
    split
    · exact hok _ hc2 hm
    · exact hok _ hc2 hm

theorem inv_event_phase {g : GameManager} (h : Inv g) :
    Inv (g.event_phase).1 := by
  obtain ⟨hc, hm, he⟩ := h
  cases hev : g.active_event with
  | none =>
    rw [GameManager.event_phase, hev]
    exact ⟨hc, hm, he⟩
  | some ev =>
    rw [GameManager.event_phase, hev]
    dsimp only
    have hge : Inv { g with active_event := some (ev.tick).1 } := by
      refine ⟨hc, hm, fun e hee => ?_⟩
      simp only [Option.some.injEq] at hee
      have hamt : (ev.tick).1.amount_needed = ev.amount_needed := by
        rw [Event.tick]; split <;> rfl
      rw [← hee, hamt]
      exact he ev hev
    split
    · split
      · exact inv_handle_event_expiry hge
      · exact hge
    · exact ⟨hc, hm, he⟩

theorem inv_generate_event {g : GameManager} (h : Inv g) (chosen : SectorName)
    (base : ℕ) : Inv (g.generate_event chosen base).1 := by
  obtain ⟨hc, hm, he⟩ := h
  refine ⟨hc, hm, fun e hee => ?_⟩
  simp only [GameManager.generate_event, Option.some.injEq] at hee
  rw [← hee]
  exact pyInt_nonneg (mul_nonneg (by positivity) hm)

theorem inv_spawn_phase {g : GameManager} (h : Inv g) (chosen : SectorName)
    (base : ℕ) (delay : ℤ) : Inv (g.spawn_phase chosen base delay).1 := by
  rw [GameManager.spawn_phase]
  dsimp only
  have h1 : Inv { g with next_event_time := g.next_event_time - 1 } :=
    ⟨h.1, h.2.1, h.2.2⟩
  split
  · obtain ⟨hc, hm, he⟩ := inv_generate_event h1 chosen base
    exact ⟨hc, hm, he⟩
  · exact h1

theorem inv_game_tick {g : GameManager} (h : Inv g) (inp : TickInput) :
    Inv (g.game_tick inp).1 := by
  rw [GameManager.game_tick]
  dsimp only
  split
  · have h1 := inv_advance_counters h
    have h2 : Inv { g.advance_counters with
        city := g.advance_counters.city.refill_tower } :=
      ⟨cityInv_refill h1.1, h1.2.1, h1.2.2⟩
    have h3 : Inv { { g.advance_counters with
        city := g.advance_counters.city.refill_tower } with
        city := ({ g.advance_counters with
          city := g.advance_counters.city.refill_tower } : GameManager).city.update_sectors
            inp.draws } :=
      ⟨cityInv_update_sectors h2.1 inp.draws, h2.2.1, h2.2.2⟩
    have h4 := inv_warn_critical h3
    have h5 := inv_event_phase h4
    have h6 := inv_spawn_phase h5 inp.event_sector inp.event_base inp.next_delay
    split
    · split
      · next n heq => exact inv_game_over h6 n
      · exact h6
    · split
      · exact inv_game_won h6
      · exact h6
  · exact h

theorem inv_ui_allocate {g : GameManager} (h : Inv g) (n : SectorName)
    (amount : ℕ) : Inv (GameUI.allocate_water g n amount).1 := by
  rw [GameUI.allocate_water]
  dsimp only
  have hca : CityInv (g.city.allocate_water n (amount : ℤ)).1 :=
    cityInv_allocate (by positivity) h.1
  split
  · split
    · exact ⟨hca, h.2.1, h.2.2⟩
    · exact ⟨hca, h.2.1, h.2.2⟩
  · exact h

theorem inv_resolve_event {g : GameManager} (h : Inv g) :
    Inv (GameUI.resolve_event g).1 := by
  obtain ⟨hc, hm, he⟩ := h
  cases hev : g.active_event with
  | none =>
    rw [GameUI.resolve_event, GameManager.resolve_event, hev]
    exact ⟨hc, hm, he⟩
  | some ev =>
    rw [GameUI.resolve_event, GameManager.resolve_event, hev]
    dsimp only
    split
    · split
      · refine ⟨cityInv_allocate (he ev hev) hc, hm, fun e hee => ?_⟩
        simp only [Option.some.injEq] at hee
        rw [← hee]
        exact he ev hev
      · exact ⟨hc, hm, he⟩
    · exact ⟨hc, hm, he⟩

/-- Every reachable state satisfies the run invariant. -/
theorem reachable_inv {g : GameManager} (h : Reachable g) : Inv g := by
  induction h with
  | init d => exact inv_init d
  | tick inp _ ih => exact inv_game_tick ih inp
  | alloc n amount _ ih => exact inv_ui_allocate ih n amount
  | resolve _ ih => exact inv_resolve_event ih

/-! ## The claims -/

/-- C1: in every reachable state of a run — any interleaving of ticks
(refill, consumption, event expiry penalty) and player commands (allocate,
resolve) — every sector satisfies `0 ≤ water_level ≤ max_water` and the
tower satisfies `0 ≤ tower_level ≤ max_tower`. -/
theorem claim1_clamping_invariant {g : GameManager} (h : Reachable g) :
    (∀ n : SectorName, 0 ≤ (g.city.sectors n).water_level ∧
      (g.city.sectors n).water_level ≤ (g.city.sectors n).max_water) ∧
    0 ≤ g.city.tower_level ∧ g.city.tower_level ≤ g.city.max_tower := by
  obtain ⟨⟨hs, h0, h1, _⟩, _, _⟩ := reachable_inv h
  exact ⟨hs, h0, h1⟩

/-- C1 witness: the invariant instantiated at a freshly initialized run. -/
theorem claim1_clamping_invariant_witness :
    (∀ n : SectorName, 0 ≤ ((GameManager.init 15).city.sectors n).water_level ∧
      ((GameManager.init 15).city.sectors n).water_level ≤
        ((GameManager.init 15).city.sectors n).max_water) ∧
    0 ≤ (GameManager.init 15).city.tower_level ∧
      (GameManager.init 15).city.tower_level ≤
        (GameManager.init 15).city.max_tower :=
  claim1_clamping_invariant (Reachable.init 15)

/-- C2: `allocate_water` succeeds exactly when `tower_level ≥ amount`; on
success the tower is debited by the amount and the named sector credited
(clamped at capacity) in the same call; on failure the city is returned
entirely unchanged. -/
theorem claim2_allocation_atomic (c : City) (n : SectorName) (amount : ℤ) :
    ((c.allocate_water n amount).2 = true ↔ amount ≤ c.tower_level) ∧
    ((c.allocate_water n amount).2 = true →
      (c.allocate_water n amount).1.tower_level = c.tower_level - amount ∧
      ((c.allocate_water n amount).1.sectors n).water_level =
        min (c.sectors n).max_water ((c.sectors n).water_level + amount)) ∧
    ((c.allocate_water n amount).2 = false →
      (c.allocate_water n amount).1 = c) := by
  rw [City.allocate_water]
  split
  · next hle =>
    refine ⟨iff_of_true rfl hle, fun _ => ⟨rfl, ?_⟩, fun hf => absurd hf (by simp)⟩
    rw [show ({ c with
        tower_level := c.tower_level - amount
        sectors := setAt c.sectors n ((c.sectors n).add_water amount) } : City).sectors
      = setAt c.sectors n ((c.sectors n).add_water amount) from rfl, setAt_same]
    rfl
  · next hgt =>
    exact ⟨iff_of_false (by simp) hgt, fun ht => absurd ht (by simp), fun _ => rfl⟩

/-- C2 witness: the insufficient-tower scenario of the spec (tower at 5,
allocate 10 fails and changes nothing), plus a successful allocation. -/
theorem claim2_allocation_atomic_witness :
    (({ City.init with tower_level := 5 } : City).allocate_water
        .households 10).1 = { City.init with tower_level := 5 } ∧
    (City.init.allocate_water .households 200).1.tower_level =
      City.init.tower_level - 200 :=
  ⟨(claim2_allocation_atomic { City.init with tower_level := 5 }
      .households 10).2.2 (by decide),
   ((claim2_allocation_atomic City.init .households 200).2.1
      ((claim2_allocation_atomic City.init .households 200).1.mpr
        (by decide))).1⟩

/-- C3 counterexample: on an empty sector (level 0, threshold 20),
`is_critical` returns `true` although `level > 0` fails — the source tests
only `water_level <= risk_threshold`, with no positivity conjunct. -/
theorem claim3_counterexample :
    (({ Sector.init .households 1 7 with water_level := 0 } : Sector).is_critical).2
        = true ∧
      ¬ (0 < ({ Sector.init .households 1 7 with
        water_level := 0 } : Sector).water_level) := by
  constructor
  · decide
  · decide

/-- C3 amended: `is_critical` returns `true` iff `water_level ≤
risk_threshold` (without the claimed `level > 0` conjunct, which only the
caller adds via `is_empty`); a call returning `true` increments
`critical_warnings` by exactly one, and a call returning `false` leaves the
sector unchanged. -/
theorem claim3_amended (s : Sector) :
    ((s.is_critical).2 = true ↔ s.water_level ≤ s.risk_threshold) ∧
    ((s.is_critical).2 = true →
      (s.is_critical).1 = { s with critical_warnings := s.critical_warnings + 1 }) ∧
    ((s.is_critical).2 = false → (s.is_critical).1 = s) := by
  rw [Sector.is_critical]
  split
  · next hcrit =>
    exact ⟨iff_of_true rfl hcrit, fun _ => rfl, fun hf => absurd hf (by simp)⟩
  · next hnot =>
    exact ⟨iff_of_false (by simp) hnot, fun ht => absurd ht (by simp), fun _ => rfl⟩

/-- C3 witness: a critical sector (level 10, threshold 20) gets its warning
counter bumped. -/
theorem claim3_amended_witness :
    ((({ Sector.init .households 1 7 with water_level := 10 } : Sector).is_critical).2
        = true) ∧
    ((({ Sector.init .households 1 7 with water_level := 10 } : Sector).is_critical).1
        = { ({ Sector.init .households 1 7 with water_level := 10 } : Sector) with
              critical_warnings := 1 }) :=
  ⟨(claim3_amended { Sector.init .households 1 7 with
      water_level := 10 }).1.mpr (by decide),
   (claim3_amended { Sector.init .households 1 7 with water_level := 10 }).2.1
    ((claim3_amended { Sector.init .households 1 7 with
      water_level := 10 }).1.mpr (by decide))⟩

/-- C6 counterexample: a sector at level 10 consuming a drawn 15 (within its
range (1, 20)) has `total_consumed` grow by the drawn 15, not by the actual
decrease `min 15 10 = 10` the claim states. -/
theorem claim6_counterexample :
    (({ Sector.init .households 1 20 with water_level := 10 } : Sector).consume
        15).1.total_consumed
      ≠ ({ Sector.init .households 1 20 with
            water_level := 10 } : Sector).total_consumed +
          min 15 ({ Sector.init .households 1 20 with
            water_level := 10 } : Sector).water_level ∧
    1 ≤ 15 ∧ 15 ≤ 20 := by
  refine ⟨?_, by norm_num, by norm_num⟩
  decide

/-- C6 amended: for a drawn amount within the sector's range, `consume`
decreases the level by the drawn amount clamped at 0, adds the drawn amount
(not the clamped actual decrease) to `total_consumed`, and returns the drawn
amount. -/
theorem claim6_amended (s : Sector) (d : ℕ) (hlo : s.cons_lo ≤ d)
    (hhi : d ≤ s.cons_hi) :
    (s.consume d).1.water_level = max 0 (s.water_level - d) ∧
    (s.consume d).1.total_consumed = s.total_consumed + d ∧
    (s.consume d).2 = d :=
  ⟨rfl, rfl, rfl⟩

/-- C6 witness: the clamped scenario — level 10, draw 15 — lands at level 0
with `total_consumed` 15. -/
theorem claim6_amended_witness :
    (({ Sector.init .households 1 20 with water_level := 10 } : Sector).consume
        15).1.water_level = max 0 (10 - (15 : ℤ)) ∧
    (({ Sector.init .households 1 20 with water_level := 10 } : Sector).consume
        15).1.total_consumed = 0 + (15 : ℤ) ∧
    (({ Sector.init .households 1 20 with water_level := 10 } : Sector).consume
        15).2 = 15 :=
  claim6_amended { Sector.init .households 1 20 with water_level := 10 } 15
    (by decide) (by decide)

/-- C4 counterexample: in a terminated state that still holds an active
event (reachable when another sector empties while the event is pending),
the resolve command is not a no-op: it bumps `events_resolved` and debits
the tower. -/
theorem claim4_counterexample :
    deadWithEvent.game_running = false ∧
    (GameUI.resolve_event deadWithEvent).1.events_resolved ≠
      deadWithEvent.events_resolved ∧
    (GameUI.resolve_event deadWithEvent).1.city.tower_level ≠
      deadWithEvent.city.tower_level := by
  refine ⟨rfl, ?_, ?_⟩
  · decide
  · decide

/-- C4 amended: after termination the allocate command is a complete no-op,
and the resolve command is a no-op provided no active event remains;
`resolve_event` itself is not guarded by `game_running`, so an event still
active at termination can still be resolved (the counterexample). -/
theorem claim4_amended (g : GameManager) (h : g.game_running = false) :
    (∀ (n : SectorName) (amount : ℕ),
      GameUI.allocate_water g n amount = (g, [])) ∧
    (g.event_inactive = true → GameUI.resolve_event g = (g, [])) := by
  constructor
  · intro n amount
    rw [GameUI.allocate_water, if_neg (by rw [h]; exact Bool.false_ne_true)]
  · intro hq
    rw [GameManager.event_inactive] at hq
    cases hev : g.active_event with
    | none => rw [GameUI.resolve_event, GameManager.resolve_event, hev]
    | some ev =>
      rw [hev] at hq
      simp only [Bool.not_eq_true'] at hq
      rw [GameUI.resolve_event, GameManager.resolve_event, hev]
      dsimp only
      rw [if_neg (by rw [hq]; exact Bool.false_ne_true)]

/-- C4 witness: a terminated, event-free state on which both commands
return the state untouched with no output. -/
theorem claim4_amended_witness :
    GameUI.allocate_water deadQuiet .households 10 = (deadQuiet, []) ∧
    GameUI.resolve_event deadQuiet = (deadQuiet, []) :=
  ⟨(claim4_amended deadQuiet rfl).1 .households 10,
   (claim4_amended deadQuiet rfl).2 rfl⟩

/-- C5: on the tick in which the expiry penalty empties the target sector,
the source does NOT short-circuit: after `handle_event_expiry` already ran
`game_over`, the tick still decrements the spawn countdown, spawns a fresh
event (the expired one was deactivated), and evaluates the loss condition
again — running `game_over` a second time.  The trace of one such tick
shows two end-screen transitions and a newly spawned event in the final
state. -/
theorem claim5_no_short_circuit :
    (expiryLossState.game_tick expiryLossTick).2 =
      [.criticalWarning .households, .eventExpired .households,
       .gameOverMsg .households, .endScreen false (some .households),
       .urgentEvent .businesses 20,
       .gameOverMsg .households, .endScreen false (some .households)] ∧
    countEndScreens (expiryLossState.game_tick expiryLossTick).2 = 2 ∧
    (expiryLossState.game_tick expiryLossTick).1.active_event =
      some { sector := .businesses, amount_needed := 20, time_left := 8,
             is_active := true } ∧
    (expiryLossState.game_tick expiryLossTick).1.game_running = false := by
  have hpy : pyInt ((expiryLossTick.event_base : ℚ) * 1) = 20 := by
    norm_num [expiryLossTick, pyInt]
  refine ⟨?_, by decide, ?_, by decide⟩
  · calc (expiryLossState.game_tick expiryLossTick).2
        = [.criticalWarning .households, .eventExpired .households,
           .gameOverMsg .households, .endScreen false (some .households),
           .urgentEvent .businesses (pyInt ((expiryLossTick.event_base : ℚ) * 1)),
           .gameOverMsg .households, .endScreen false (some .households)] := rfl
      _ = _ := by rw [hpy]
  · calc (expiryLossState.game_tick expiryLossTick).1.active_event
        = some { sector := .businesses,
                 amount_needed := pyInt ((expiryLossTick.event_base : ℚ) * 1),
                 time_left := 8, is_active := true } := rfl
      _ = _ := by rw [hpy]

/-- C7 counterexample: with difficulty multiplier 21∕20 (its value after one
ramp step) and base draw 30, the source computes
`int(30 * 1.05) = 31`, while rounding to nearest gives 32. -/
theorem claim7_counterexample :
    (({ GameManager.init 5 with difficulty_multiplier := 21/20 } :
        GameManager).generate_event .households 30).1.active_event =
      some { sector := .households, amount_needed := 31, time_left := 8,
             is_active := true } ∧
    round ((30 : ℚ) * (21/20)) = 32 ∧
    (20 ≤ 30 ∧ 30 ≤ 60) := by
  refine ⟨?_, by norm_num [round_eq], by norm_num⟩
  simp only [GameManager.generate_event, Event.init]
  norm_num [pyInt]

/-- C7 amended: a spawned event's `amount_needed` is the truncation
`⌊base * difficultyMultiplier⌋` (Python `int()`, truncation toward zero —
not rounding to nearest), and its countdown starts at 8. -/
theorem claim7_amended (g : GameManager) (chosen : SectorName) (base : ℕ)
    (hb : 20 ≤ base ∧ base ≤ 60) (hm : 0 ≤ g.difficulty_multiplier) :
    (g.generate_event chosen base).1.active_event =
      some { sector := chosen
             amount_needed := ⌊(base : ℚ) * g.difficulty_multiplier⌋
             time_left := 8
             is_active := true } := by
  rw [GameManager.generate_event]
  dsimp only
  rw [Event.init, pyInt_of_nonneg (mul_nonneg (by positivity) hm)]

/-- C7 witness: base 30 at multiplier 21∕20 spawns amount ⌊31.5⌋ = 31 with
countdown 8. -/
theorem claim7_amended_witness :
    (({ GameManager.init 5 with difficulty_multiplier := 21/20 } :
        GameManager).generate_event .businesses 30).1.active_event =
      some { sector := .businesses
             amount_needed := ⌊(30 : ℚ) * (21/20 : ℚ)⌋
             time_left := 8
             is_active := true } :=
  claim7_amended { GameManager.init 5 with difficulty_multiplier := 21/20 }
    .businesses 30 (by norm_num) (by norm_num [GameManager.init])

/-- The sector loop of `calculate_score` as a sum. -/
theorem score_foldl (l : List SectorStats) (a : ℤ) :
    List.foldl
        (fun acc s => acc + s.final_level * 10 - (s.critical_warnings : ℤ) * 100)
        a l
      = a + (l.map fun s =>
          s.final_level * 10 - (s.critical_warnings : ℤ) * 100).sum := by
  induction l generalizing a with
  | nil => simp
  | cons s l ih =>
    simp only [List.foldl_cons, List.map_cons, List.sum_cons, ih]
    ring

/-- C8: the final score is the specified closed formula — floor of elapsed
hundredths, win bonus, event bonuses and penalties, and the per-sector
level/warning terms — floored at 0, and it is never negative for any
input. -/
theorem claim8_score_formula (stats : Stats) (won : Bool) :
    0 ≤ GameUI.calculate_score stats won ∧
    (0 ≤ stats.time_survived →
      GameUI.calculate_score stats won =
        max 0 (⌊stats.time_survived * 100⌋ +
          (if won = true then 50000 else 0) +
          (stats.events_resolved : ℤ) * 1000 -
          (stats.events_failed : ℤ) * 500 +
          (stats.sectors.map fun s =>
            s.final_level * 10 - (s.critical_warnings : ℤ) * 100).sum)) := by
  constructor
  · rw [GameUI.calculate_score]
    exact le_max_left _ _
  · intro ht
    rw [GameUI.calculate_score]
    rw [score_foldl, pyInt_of_nonneg (mul_nonneg ht (by norm_num))]
    cases won
    · simp only [Bool.false_eq_true, if_false]
      congr 1
      ring
    · simp only [if_true]
      congr 1
      ring

/-- C8 witness: the round-trip scenario of the spec — 120 s, won, 3
resolved, 1 failed, three sectors at level 100 with no warnings — scores
67500, and the score is non-negative. -/
theorem claim8_score_formula_witness :
    0 ≤ GameUI.calculate_score
        { time_survived := 120, events_resolved := 3, events_failed := 1,
          total_allocations := 5,
          sectors := [⟨0, 0, 0, 100⟩, ⟨0, 0, 0, 100⟩, ⟨0, 0, 0, 100⟩] } true ∧
    GameUI.calculate_score
        { time_survived := 120, events_resolved := 3, events_failed := 1,
          total_allocations := 5,
          sectors := [⟨0, 0, 0, 100⟩, ⟨0, 0, 0, 100⟩, ⟨0, 0, 0, 100⟩] } true
      = 67500 := by
  constructor
  · exact (claim8_score_formula _ _).1
  · rw [(claim8_score_formula _ _).2 (by norm_num)]
    norm_num

/-- Taking from the front commutes with filtering, up to the number kept:
the filtered entries of an initial segment are an initial segment of the
filtered entries. -/
theorem filter_take_exists {α : Type} (p : α → Bool) :
    ∀ (l : List α) (n : ℕ), ∃ k, (l.take n).filter p = (l.filter p).take k := by
  intro l
  induction l with
  | nil => exact fun n => ⟨0, by simp⟩
  | cons a l ih =>
    intro n
    cases n with
    | zero => exact ⟨0, by simp⟩
    | succ n =>
      obtain ⟨k, hk⟩ := ih n
      by_cases hp : p a = true
      · exact ⟨k + 1, by simp [List.take_succ_cons, List.filter_cons, hp, hk]⟩
      · exact ⟨k, by simp [List.take_succ_cons, List.filter_cons, hp, hk]⟩

/-- Inserting into the score order keeps the entries of each score class in
place: the walked-past entries all score strictly higher. -/
theorem orderedInsert_filter_score (a : LeaderboardEntry) (sc : ℤ) :
    ∀ t : List LeaderboardEntry,
      (List.orderedInsert byScoreDesc a t).filter
          (fun x => decide (x.score = sc))
        = if a.score = sc
            then a :: t.filter (fun x => decide (x.score = sc))
            else t.filter (fun x => decide (x.score = sc)) := by
  intro t
  induction t with
  | nil =>
    by_cases ha : a.score = sc <;>
      simp [List.orderedInsert, List.filter_cons, ha]
  | cons b t ih =>
    rw [List.orderedInsert]
    split
    · by_cases ha : a.score = sc <;> simp [List.filter_cons, ha]
    · next hab =>
      have hb : a.score < b.score := lt_of_not_le hab
      rw [List.filter_cons, ih]
      by_cases ha : a.score = sc
      · have hbne : ¬ b.score = sc := by
          rw [← ha]
          exact ne_of_gt hb
        simp [List.filter_cons, ha, hbne]
      · by_cases hbe : b.score = sc <;> simp [List.filter_cons, ha, hbe]

/-- The stable sort of `add_to_leaderboard` restricted to one score class is
the identity: equal-score entries come out in insertion order. -/
theorem insertionSort_filter_score (sc : ℤ) :
    ∀ l : List LeaderboardEntry,
      (List.insertionSort byScoreDesc l).filter
          (fun x => decide (x.score = sc))
        = l.filter (fun x => decide (x.score = sc)) := by
  intro l
  induction l with
  | nil => rfl
  | cons a l ih =>
    rw [List.insertionSort, orderedInsert_filter_score, ih, List.filter_cons]
    by_cases ha : a.score = sc <;> simp [ha]

/-- C9: the stored leaderboard after an insertion holds at most 10 entries
sorted by score descending, with ties broken by insertion order (stability:
for every score, the stored entries of that score are an initial segment of
the insertion-ordered input entries of that score — Python's stable `sort`
is modelled by `insertionSort`); and an 11th entry scoring below all ten
stored ones leaves the collection unchanged. -/
theorem claim9_leaderboard_top10 (board : List LeaderboardEntry)
    (e : LeaderboardEntry) :
    (GameUI.add_to_leaderboard board e).length ≤ 10 ∧
    List.Sorted byScoreDesc (GameUI.add_to_leaderboard board e) ∧
    (∀ sc : ℤ, ∃ k : ℕ,
      (GameUI.add_to_leaderboard board e).filter
          (fun x => decide (x.score = sc))
        = ((board ++ [e]).filter (fun x => decide (x.score = sc))).take k) ∧
    (board.length = 10 → List.Sorted byScoreDesc board →
      (∀ x ∈ board, e.score < x.score) →
      GameUI.add_to_leaderboard board e = board) := by
  refine ⟨?_, ?_, ?_, ?_⟩
  · rw [GameUI.add_to_leaderboard, List.length_take]
    exact min_le_left 10 _
  · rw [GameUI.add_to_leaderboard]
    exact List.Pairwise.sublist (List.take_sublist 10 _)
      (List.sorted_insertionSort byScoreDesc _)
  · intro sc
    obtain ⟨k, hk⟩ := filter_take_exists (fun x => decide (x.score = sc))
      (List.insertionSort byScoreDesc (board ++ [e])) 10
    refine ⟨k, ?_⟩
    rw [GameUI.add_to_leaderboard, hk, insertionSort_filter_score]
  · intro hlen hsort hlt
    have hs : List.Sorted byScoreDesc (board ++ [e]) := by
      refine List.pairwise_append.mpr
        ⟨hsort, List.pairwise_singleton _ _, fun a ha b hb => ?_⟩
      rw [List.mem_singleton] at hb
      subst hb
      exact le_of_lt (hlt a ha)
    rw [GameUI.add_to_leaderboard, hs.insertionSort_eq, ← hlen,
      List.take_left]

/-- C9 witness: a full board of ten scores 100 … 10 absorbs a score-1 entry
without change, and three equal-score entries end up in insertion order
(dates 0, 1, 2). -/
theorem claim9_leaderboard_top10_witness :
    GameUI.add_to_leaderboard fullBoard (plainEntry 1 99) = fullBoard ∧
    GameUI.add_to_leaderboard [plainEntry 50 0, plainEntry 50 1]
        (plainEntry 50 2)
      = [plainEntry 50 0, plainEntry 50 1, plainEntry 50 2] :=
  ⟨(claim9_leaderboard_top10 fullBoard (plainEntry 1 99)).2.2.2
    (by decide) (by decide) (by decide),
   by decide⟩

end WaterCycleV2

/-- C10: on matching states (same tower level; same level and capacity of
the addressed sector) the two versions' `allocate_water` agree on the
returned boolean, the resulting tower level and the resulting target-sector
water level; the second version additionally grows the sector's
`total_allocated` statistic by the post-clamp credited amount. -/
theorem claim10_allocate_equivalence (c1 : WaterCycle1.City)
    (c2 : WaterCycleV2.City) (n : SectorName) (amount : ℤ)
    (ht : c1.tower_level = c2.tower_level)
    (hl : (c1.sectors n).water_level = (c2.sectors n).water_level)
    (hmw : (c1.sectors n).max_water = (c2.sectors n).max_water) :
    (c1.allocate_water n amount).2 = (c2.allocate_water n amount).2 ∧
    (c1.allocate_water n amount).1.tower_level =
      (c2.allocate_water n amount).1.tower_level ∧
    ((c1.allocate_water n amount).1.sectors n).water_level =
      ((c2.allocate_water n amount).1.sectors n).water_level ∧
    ((c2.allocate_water n amount).2 = true →
      ((c2.allocate_water n amount).1.sectors n).total_allocated =
        (c2.sectors n).total_allocated +
          (min (c2.sectors n).max_water ((c2.sectors n).water_level + amount) -
            (c2.sectors n).water_level)) := by
  by_cases hc : amount ≤ c2.tower_level
  · have hc1 : amount ≤ c1.tower_level := by rw [ht]; exact hc
    rw [WaterCycle1.City.allocate_water, WaterCycleV2.City.allocate_water,
      if_pos hc1, if_pos hc]
    refine ⟨rfl, by dsimp only; rw [ht], ?_, fun _ => ?_⟩
    · dsimp only
      rw [WaterCycleV2.setAt_same, WaterCycleV2.setAt_same,
        WaterCycle1.Sector.add_water, WaterCycleV2.Sector.add_water]
      dsimp only
      rw [hl, hmw]
    · dsimp only
      rw [WaterCycleV2.setAt_same]
      rfl
  · have hc1 : ¬ amount ≤ c1.tower_level := by rw [ht]; exact hc
    rw [WaterCycle1.City.allocate_water, WaterCycleV2.City.allocate_water,
      if_neg hc1, if_neg hc]
    exact ⟨rfl, ht, hl, fun hfalse => absurd hfalse (by simp)⟩

/-- C10 witness: on the two freshly initialized cities (which agree on
tower and Households levels), allocating 300 to Households agrees in result
and success flag. -/
theorem claim10_allocate_equivalence_witness :
    (WaterCycle1.City.init.allocate_water .households 300).2 =
      (WaterCycleV2.City.init.allocate_water .households 300).2 ∧
    (WaterCycle1.City.init.allocate_water .households 300).1.tower_level =
      (WaterCycleV2.City.init.allocate_water .households 300).1.tower_level ∧
    ((WaterCycle1.City.init.allocate_water
        .households 300).1.sectors .households).water_level =
      ((WaterCycleV2.City.init.allocate_water
        .households 300).1.sectors .households).water_level :=
  let h := claim10_allocate_equivalence WaterCycle1.City.init
    WaterCycleV2.City.init .households 300 rfl rfl rfl
  ⟨h.1, h.2.1, h.2.2.1⟩
